import Mathlib

/-!
# Blood-pressure bot: shallow embedding and verification

Shallow embedding of the conversation state machine, reminder scheduling
logic, measurement parsing and the worker loop of the blood-pressure
Telegram bot (files `src/models/__init__.py`, `src/dispatchers/__init__.py`,
`src/bot/__init__.py`).

Modelling conventions:

* Instants are epoch timestamps in whole seconds, `Int`.  The Python code
  uses `float` timestamps; sub-second precision never affects any of the
  comparisons verified here (all comparisons are `<=` against instants that
  the code itself truncates to whole minutes or produces from whole-second
  arithmetic).
* A `pytz` timezone is modelled by its fixed UTC offset in seconds
  (`TZ.offset`).  This is exact in the absence of a DST transition between
  the instants involved in one computation, which is the regime the spec
  describes.  The host process is assumed to run with local time = UTC
  (the deployment runs in a container without TZ configuration), so
  `datetime.now()`, `datetime.utcnow()` and `datetime.fromtimestamp` all
  agree with epoch arithmetic.
* Python strings are modelled as `List Char` (a Python `str` is a sequence
  of code points).  `str.split(sep)` is modelled by `splitChar`, `int(s)`
  by `pyInt` (restricted to an optional sign followed by ASCII digits;
  the exotic forms Python additionally accepts -- surrounding whitespace,
  `_` separators, non-ASCII digits -- play no role in any claim).
* Python floor division / modulo by the positive constants 86400 and 60
  coincide with Lean's `Int` `/` and `%` (Euclidean division equals floor
  division for a positive divisor).
* Exceptions are modelled by an error type `Err` whose constructors name
  the raise site; in Python most of these are `ValueError`s distinguished
  only by message and raise site, except `machineError`
  (`transitions.MachineError`) and the attribute errors.
* Outbound chat messages are modelled as tags (`Msg`); their textual
  content (`Messages` class) is irrelevant to every claim.
-/

/-- Python `str` as a sequence of code points. -/
abbrev Str := List Char

/-- Errors, named by raise site.  In Python, `machineError` is
`transitions.MachineError`, `noSuchTrigger` and `noneAttribute` are
`AttributeError`s, and the rest are `ValueError`s (pydantic validation
errors subclass `ValueError`). -/
inductive Err where
  /-- The `transitions.MachineError`: the trigger exists but the current state
  is not among its allowed sources. -/
  | machineError
  /-- The `AttributeError` from `Machine.dispatch` when the trigger method does
  not exist on the model (no transition row defines it). -/
  | noSuchTrigger
  /-- The `AttributeError`/`TypeError` from using `None` where an object is
  required (e.g. `None.reset()`, or `message.text` with `message = None`),
  and the pydantic validation error for `Reminder(tz=None)`. -/
  | noneAttribute
  /-- The `ValueError` raised in `Reminder.new` / `Reminder._parse`
  (malformed length, unparsable field, or the explicit hour/minute
  bound checks). -/
  | invalidTimeFormat
  /-- The `ValueError` raised by `datetime.replace` itself when handed
  `hour > 23` or `minute > 59` (reachable because `Reminder.new` accepts
  hour 24 and minute 60). -/
  | replaceOutOfBounds
  /-- The `ValueError` raised in `Reminder.update_next_time` when the reminder
  is not yet due. -/
  | prematureAdvance
  /-- The `ValueError` raised in `Measurement._parse` when the parsed integer
  is outside `[0, 1000]`. -/
  | outOfRange
  /-- The `ValueError` from `int(...)` or tuple unpacking in
  `Measurement.from_string`. -/
  | malformedReading
  /-- The `ValueError` raised in `TZ.from_city` when geocoding yields no
  timezone. -/
  | invalidLocation
deriving DecidableEq, Repr

/-- Value of a list of ASCII digit characters, most significant first:
the computation performed by Python `int` on a digit string. -/
def digitsVal (cs : Str) : Nat :=
  cs.foldl (fun a c => 10 * a + (c.toNat - 48)) 0

/-- Python `int(s)` (restricted to an optional single sign followed by a
nonempty run of ASCII digits; see the module conventions). -/
def pyInt (cs : Str) : Option Int :=
  match cs with
  | [] => none
  | c :: rest =>
    if c = '+' then
      if !rest.isEmpty && rest.all Char.isDigit then some ((digitsVal rest : Nat) : Int) else none
    else if c = '-' then
      if !rest.isEmpty && rest.all Char.isDigit then some (-((digitsVal rest : Nat) : Int)) else none
    else
      if (c :: rest).all Char.isDigit then some ((digitsVal (c :: rest) : Nat) : Int) else none

/-- Python `str.split(sep)` for a one-character separator (no maxsplit). -/
def splitChar (sep : Char) : Str → List Str
  | [] => [[]]
  | c :: rest =>
    if c = sep then [] :: splitChar sep rest
    else
      match splitChar sep rest with
      | [] => [[c]]
      | g :: gs => (c :: g) :: gs

/-- Canonical decimal rendering of a natural number, as produced by Python
`str(n)` / an f-string: no sign, no leading zeros (except `"0"`). -/
def natRepr (n : Nat) : Str :=
  if n = 0 then ['0'] else ((Nat.digits 10 n).reverse.map Nat.digitChar)

/-- The `models.State`: the conversation states. -/
inductive State where
  | INITIAL
  | HISTORY
  | START
  | NOTIFY_MORNING
  | NOTIFY_EVENING
  | NOTIFY_FORGOT
  | WAIT_FOR_MORNING_TIME
  | WAIT_FOR_EVENING_TIME
  | WAIT_FOR_TZ_WHEN
  | WAIT_FOR_TZ_HISTORY
  | WAIT_FOR_TZ
  | WAIT
  | RECORD
  | STOP
  | STATUS
deriving DecidableEq, Repr

/-- The `models.TZ`: a timezone, modelled by its fixed UTC offset in seconds
(positive = east of UTC).  The IANA name and the geocoding lookup are
external concerns; `transit` receives city resolution as a function. -/
structure TZ where
  offset : Int
deriving DecidableEq, Repr

/-- The `models.Reminder`: a daily reminder at `hour:minutes` local time in
timezone `tz`, with the next due instant `next_time_ts` (epoch seconds). -/
structure Reminder where
  hour : Int
  minutes : Int
  next_time_ts : Int
  tz : TZ
deriving DecidableEq, Repr

/-- The `Reminder.is_notify_needed`: `next_time_ts <= datetime.now().timestamp()`. -/
def Reminder.isNotifyNeeded (r : Reminder) (now : Int) : Bool :=
  r.next_time_ts ≤ now

/-- The `Reminder.update_next_time`: raise unless due, else add one day
(`datetime.fromtimestamp(ts) + timedelta(days=1)` under a fixed-offset
local clock adds exactly 86400 seconds). -/
def Reminder.updateNextTime (r : Reminder) (now : Int) : Except Err Reminder :=
  if !r.isNotifyNeeded now then .error .prematureAdvance
  else .ok { r with next_time_ts := r.next_time_ts + 86400 }

/-- The `Reminder._get_next_time`: `datetime.now(tz)` is `now + offset` on the
local clock; `.replace(hour, minute, second=0, microsecond=0)` keeps the
local date (`(local / 86400) * 86400`) and raises `ValueError` for
`hour > 23` or `minute > 59`; the result is today's occurrence, or
tomorrow's if today's has passed (or is exactly now).  Returns the local
instant. -/
def Reminder.getNextTime (hour minutes : Int) (tz : TZ) (now : Int) : Except Err Int :=
  let n := now + tz.offset
  if hour < 0 ∨ 23 < hour then .error .replaceOutOfBounds
  else if minutes < 0 ∨ 59 < minutes then .error .replaceOutOfBounds
  else
    let modified := n / 86400 * 86400 + hour * 3600 + minutes * 60
    .ok (if n < modified then modified else modified + 86400)

/-- The `Reminder._get_next_time_ts`: the epoch timestamp of the aware local
datetime computed by `_get_next_time` (local instant minus offset). -/
def Reminder.getNextTimeTs (hour minutes : Int) (tz : TZ) (now : Int) : Except Err Int :=
  (Reminder.getNextTime hour minutes tz now).map (· - tz.offset)

/-- The `Reminder._parse`: length must be 1 or 2, then Python `int`.  (The
source also contains `if len(r) == 2: if r[0] == 0: return int(r[1])`;
`r[0]` is a one-character string and `0` an integer, so that comparison
is always false in Python and the branch is dead.) -/
def Reminder.parseField (r : Str) : Except Err Int :=
  if 2 < r.length ∨ r.length < 1 then .error .invalidTimeFormat
  else
    match pyInt r with
    | some v => .ok v
    | none => .error .invalidTimeFormat

/-- The `Reminder.new(data, tz)`: split on `":"` into exactly two fields
(anything else fails unpacking), parse both, check the (off-by-one)
bounds `0 <= hour <= 24`, `0 <= minutes <= 60`, construct the object
(pydantic rejects `tz=None`), then compute `next_time_ts`. -/
def Reminder.new (data : Str) (tz : Option TZ) (now : Int) : Except Err Reminder :=
  match splitChar ':' data with
  | [rawHour, rawMinutes] =>
    match Reminder.parseField rawHour with
    | .error e => .error e
    | .ok hour =>
      match Reminder.parseField rawMinutes with
      | .error e => .error e
      | .ok minutes =>
        if hour < 0 ∨ 24 < hour then .error .invalidTimeFormat
        else if minutes < 0 ∨ 60 < minutes then .error .invalidTimeFormat
        else
          match tz with
          | none => .error .noneAttribute
          | some z =>
            match Reminder.getNextTimeTs hour minutes z now with
            | .error e => .error e
            | .ok ts => .ok { hour := hour, minutes := minutes, next_time_ts := ts, tz := z }
  | _ => .error .invalidTimeFormat

/-- The `models.ReminderForgot`: the forgot tracker. -/
structure ReminderForgot where
  latest_sent_ts : Option Int
deriving DecidableEq, Repr

/-- The `ReminderForgot.new()`. -/
def ReminderForgot.new : ReminderForgot := ⟨none⟩

/-- The `ReminderForgot.is_notify_needed`: `if not self.latest_sent_ts` is a
Python truthiness test, so it treats both `None` and the timestamp `0.0`
as "never sent"; otherwise the minute-truncated send time plus 60 minutes
must be at or before now. -/
def ReminderForgot.isNotifyNeeded (f : ReminderForgot) (now : Int) : Bool :=
  match f.latest_sent_ts with
  | none => false
  | some t =>
    if t = 0 then false
    else (t - t % 60) + 3600 ≤ now

/-- The `ReminderForgot.update`: set the send time to now. -/
def ReminderForgot.update (_f : ReminderForgot) (now : Int) : ReminderForgot :=
  ⟨some now⟩

/-- The `ReminderForgot.reset`: clear the send time. -/
def ReminderForgot.reset (_f : ReminderForgot) : ReminderForgot :=
  ⟨none⟩

/-- The `models.Measurement`: a stored blood-pressure reading. -/
structure Measurement where
  high : Int
  low : Int
  ts : Int
deriving DecidableEq, Repr

/-- The `Measurement._parse`: Python `int`, then the bound check `0 <= v <= 1000`. -/
def Measurement.parseField (data : Str) : Except Err Int :=
  match pyInt data with
  | none => .error .malformedReading
  | some v => if v < 0 ∨ 1000 < v then .error .outOfRange else .ok v

/-- The `Measurement.from_string(data, timestamp)`: split on `"/"` into exactly
two fields (anything else fails unpacking), parse both. -/
def Measurement.fromString (data : Str) (timestamp : Int) : Except Err Measurement :=
  match splitChar '/' data with
  | [rawHigh, rawLow] =>
    match Measurement.parseField rawHigh with
    | .error e => .error e
    | .ok high =>
      match Measurement.parseField rawLow with
      | .error e => .error e
      | .ok low => .ok { high := high, low := low, ts := timestamp }
  | _ => .error .malformedReading

/-- The `models.User`: the per-chat aggregate. -/
structure User where
  state : State
  chat_id : Int
  reminder_morning : Option Reminder
  reminder_evening : Option Reminder
  reminder_forgot : Option ReminderForgot
  measurements : List Measurement
  tz : Option TZ
deriving DecidableEq, Repr

/-- The `User.new(chat_id)`. -/
def User.new (chat_id : Int) : User :=
  { state := .INITIAL, chat_id := chat_id, reminder_morning := none,
    reminder_evening := none, reminder_forgot := some ReminderForgot.new,
    measurements := [], tz := none }

/-- Outbound chat messages, as tags (see module conventions). -/
inductive Msg where
  | starting
  | waitForTz
  | waitForTzWhen
  | waitForTzHistory
  | waitForMorningTime
  | waitForEveningTime
  | thanks
  | thanksRecord
  | stopped
  | remindersSummary
  | historyList
  | notifyMorning
  | notifyEvening
  | notifyForgot
  | tzInfo
deriving DecidableEq, Repr

/-- The `Messages.reminders`: the status text falls back to the "stopped" text
when either reminder is missing. -/
def statusMsg (u : User) : Msg :=
  if u.reminder_morning.isNone ∨ u.reminder_evening.isNone then .stopped
  else .remindersSummary

/-- The inputs a `UserDispatcher` is constructed with, besides the user:
the current instant, the inbound message text (`none` models
`message = None`, as passed by the worker), and the external
geocoding-to-timezone collaborator (`TZ.from_city`). -/
structure Env where
  now : Int
  text : Option Str
  resolveCity : Str → Except Err TZ

/-- Allowed source states of the trigger targeting each state, from the
`transitions` table in `src/dispatchers/__init__.py` (`'*'` = any).
`none` means no trigger row targets the state: no `to_initial` trigger is
ever defined (the auto-generated transitions are named after the enum
member, `to_INITIAL`, while `transit` dispatches `"to_" + value`, which is
lower case), so dispatching it raises `AttributeError`, not
`MachineError`. -/
def triggerSource : State → Option (State → Bool)
  | .START => some fun s => s = .INITIAL
  | .WAIT => some fun _ => true
  | .WAIT_FOR_TZ => some fun s => s = .STOP ∨ s = .WAIT
  | .WAIT_FOR_TZ_WHEN => some fun s => s = .STOP ∨ s = .WAIT
  | .WAIT_FOR_TZ_HISTORY => some fun s => s = .STOP ∨ s = .WAIT
  | .WAIT_FOR_MORNING_TIME => some fun s => s = .STOP ∨ s = .WAIT ∨ s = .WAIT_FOR_TZ_WHEN
  | .WAIT_FOR_EVENING_TIME => some fun s => s = .WAIT_FOR_MORNING_TIME
  | .RECORD => some fun s => s = .WAIT
  | .STOP => some fun _ => true
  | .HISTORY => some fun s => s = .STOP ∨ s = .WAIT ∨ s = .WAIT_FOR_TZ_HISTORY
  | .NOTIFY_MORNING => some fun s => s = .WAIT
  | .NOTIFY_EVENING => some fun s => s = .WAIT
  | .NOTIFY_FORGOT => some fun s => s = .WAIT
  | .STATUS => some fun s => s = .STOP ∨ s = .WAIT
  | .INITIAL => none

/-- The `reachableFrom src target`: the transition table allows a transition
from `src` to `target`. -/
def reachableFrom (src target : State) : Bool :=
  match triggerSource target with
  | none => false
  | some ok => ok src

/-- Result of one `transit` call: the aggregate as left in memory (Python
exceptions do not roll back prior mutations), the messages sent, and the
exception if one escaped.  The callers (`handle`, `worker`) persist the
aggregate only when no exception escaped. -/
abbrev TResult := User × List Msg × Option Err

/-- Exit callback of the state being left, run by the `transitions`
machine after the guard check and before the state changes.  Only the
five sticky `WAIT_FOR_*` states define one. -/
def onExit (env : Env) (u : User) : State → TResult
  | .WAIT_FOR_MORNING_TIME =>
    -- `self.user.reminder_morning = Reminder.new(self.message.text, self.user.tz)`
    match env.text with
    | none => (u, [], some .noneAttribute)
    | some t =>
      match Reminder.new t u.tz env.now with
      | .error e => (u, [], some e)
      | .ok r => ({ u with reminder_morning := some r }, [], none)
  | .WAIT_FOR_EVENING_TIME =>
    -- sets the evening reminder, installs a fresh forgot tracker, then
    -- sends thanks + the status summary
    match env.text with
    | none => (u, [], some .noneAttribute)
    | some t =>
      match Reminder.new t u.tz env.now with
      | .error e => (u, [], some e)
      | .ok r =>
        let u1 := { u with reminder_evening := some r,
                           reminder_forgot := some ReminderForgot.new }
        (u1, [.thanks, statusMsg u1], none)
  | .WAIT_FOR_TZ =>
    match env.text with
    | none => (u, [], some .noneAttribute)
    | some t =>
      match env.resolveCity t with
      | .error e => (u, [], some e)
      | .ok z => ({ u with tz := some z }, [.thanks, .tzInfo], none)
  | .WAIT_FOR_TZ_WHEN =>
    match env.text with
    | none => (u, [], some .noneAttribute)
    | some t =>
      match env.resolveCity t with
      | .error e => (u, [], some e)
      | .ok z => ({ u with tz := some z }, [.thanks, .tzInfo], none)
  | .WAIT_FOR_TZ_HISTORY =>
    match env.text with
    | none => (u, [], some .noneAttribute)
    | some t =>
      match env.resolveCity t with
      | .error e => (u, [], some e)
      | .ok z => ({ u with tz := some z }, [.thanks, .tzInfo], none)
  | _ => (u, [], none)

/-- Entry callback of the target state.  The bounce-back states finish
with a nested `transit(WAIT)`; since none of them defines an exit
callback and `to_wait` accepts any source, that nested call is exactly a
change of the state field to `WAIT`, inlined here.  On success the state
field holds the final machine state (`transit` assigns
`self.user.state = self.state` after `dispatch` returns); when an
exception escapes, the assignment never runs, so the state field keeps
its prior value while earlier field mutations of the callback remain. -/
def onEnter (env : Env) (u : User) : State → TResult
  | .START => ({ u with state := .WAIT }, [.starting], none)
  | .STOP =>
    ({ u with reminder_morning := none, reminder_evening := none, state := .STOP },
     [.stopped], none)
  | .HISTORY => ({ u with state := .WAIT }, [.historyList], none)
  | .RECORD =>
    -- parse at capture time `utcnow()`, append, reset the forgot tracker,
    -- acknowledge, bounce to WAIT
    match env.text with
    | none => (u, [], some .noneAttribute)
    | some t =>
      match Measurement.fromString t env.now with
      | .error e => (u, [], some e)
      | .ok meas =>
        let u1 := { u with measurements := u.measurements ++ [meas] }
        match u1.reminder_forgot with
        | none => (u1, [], some .noneAttribute)
        | some f =>
          ({ u1 with reminder_forgot := some f.reset, state := .WAIT },
           [.thanksRecord], none)
  | .STATUS => ({ u with state := .WAIT }, [statusMsg u], none)
  | .NOTIFY_MORNING =>
    match u.reminder_morning with
    | none => (u, [], some .noneAttribute)
    | some r =>
      match r.updateNextTime env.now with
      | .error e => (u, [], some e)
      | .ok r1 =>
        let u1 := { u with reminder_morning := some r1 }
        match u1.reminder_forgot with
        | none => (u1, [.notifyMorning], some .noneAttribute)
        | some f =>
          ({ u1 with reminder_forgot := some (f.update env.now), state := .WAIT },
           [.notifyMorning], none)
  | .NOTIFY_EVENING =>
    match u.reminder_evening with
    | none => (u, [], some .noneAttribute)
    | some r =>
      match r.updateNextTime env.now with
      | .error e => (u, [], some e)
      | .ok r1 =>
        let u1 := { u with reminder_evening := some r1 }
        match u1.reminder_forgot with
        | none => (u1, [.notifyEvening], some .noneAttribute)
        | some f =>
          ({ u1 with reminder_forgot := some (f.update env.now), state := .WAIT },
           [.notifyEvening], none)
  | .NOTIFY_FORGOT =>
    match u.reminder_forgot with
    | none => (u, [.notifyForgot], some .noneAttribute)
    | some f =>
      ({ u with reminder_forgot := some f.reset, state := .WAIT },
       [.notifyForgot], none)
  | .WAIT_FOR_MORNING_TIME =>
    ({ u with state := .WAIT_FOR_MORNING_TIME }, [.waitForMorningTime], none)
  | .WAIT_FOR_EVENING_TIME =>
    ({ u with state := .WAIT_FOR_EVENING_TIME }, [.waitForEveningTime], none)
  | .WAIT_FOR_TZ => ({ u with state := .WAIT_FOR_TZ }, [.waitForTz], none)
  | .WAIT_FOR_TZ_WHEN => ({ u with state := .WAIT_FOR_TZ_WHEN }, [.waitForTzWhen], none)
  | .WAIT_FOR_TZ_HISTORY =>
    ({ u with state := .WAIT_FOR_TZ_HISTORY }, [.waitForTzHistory], none)
  | .WAIT => ({ u with state := .WAIT }, [], none)
  | .INITIAL => ({ u with state := .INITIAL }, [], none)

/-- The `UserDispatcher.transit(state)`: dispatch the trigger
`"to_" + state.value`.  An unknown trigger raises `AttributeError`; a
trigger whose sources exclude the current state raises `MachineError`
before any callback; otherwise the exit callback of the current state
runs, then the state changes and the entry callback of the target runs
(including its bounce-back). -/
def transit (env : Env) (u : User) (target : State) : TResult :=
  match triggerSource target with
  | none => (u, [], some .noSuchTrigger)
  | some sources =>
    if ¬ sources u.state then (u, [], some .machineError)
    else
      match onExit env u u.state with
      | (u1, ms1, some e) => (u1, ms1, some e)
      | (u1, ms1, none) =>
        match onEnter env u1 target with
        | (u2, ms2, e2) => (u2, ms1 ++ ms2, e2)

/-- The `user.reminder_morning and user.reminder_morning.is_notify_needed()`
(a present reminder object is always truthy). -/
def morningDue (u : User) (now : Int) : Bool :=
  match u.reminder_morning with
  | none => false
  | some r => r.isNotifyNeeded now

/-- The `user.reminder_evening and user.reminder_evening.is_notify_needed()`. -/
def eveningDue (u : User) (now : Int) : Bool :=
  match u.reminder_evening with
  | none => false
  | some r => r.isNotifyNeeded now

/-- The `user.reminder_forgot and user.reminder_forgot.is_notify_needed()`
(a present tracker object is always truthy, even with a `None` field). -/
def forgotDue (u : User) (now : Int) : Bool :=
  match u.reminder_forgot with
  | none => false
  | some f => f.isNotifyNeeded now

/-- One conditional block of the worker body: if the condition is due,
transit to the notification state and, on success, upsert the mutated
aggregate (the returned user).  An escaping exception skips the upsert
and aborts the enclosing `with error_handler` block. -/
def condStep (env : Env) (due : User → Int → Bool) (target : State) (u : User) :
    Except Err User :=
  if due u env.now then
    match transit env u target with
    | (u1, _, none) => .ok u1
    | (_, _, some e) => .error e
  else .ok u

/-- The worker's per-user body, returning the user's record as left in the
store after this tick.  The three condition blocks run sequentially under
a single `error_handler`: an exception in one block is caught at the
per-user level, so the remaining blocks are skipped and the store keeps
the snapshot written by the last successful block (the worker reloads
every user from the store on the next cycle, so the in-memory object of a
failed block is discarded). -/
def tickUser (env : Env) (u0 : User) : User :=
  match condStep env morningDue .NOTIFY_MORNING u0 with
  | .error _ => u0
  | .ok u1 =>
    match condStep env eveningDue .NOTIFY_EVENING u1 with
    | .error _ => u1
    | .ok u2 =>
      match condStep env forgotDue .NOTIFY_FORGOT u2 with
      | .error _ => u2
      | .ok u3 => u3

/-- One worker cycle over all stored users: each user is processed inside
its own `error_handler`, so users are handled independently. -/
def workerTick (env : Env) (users : List User) : List User :=
  users.map (tickUser env)

/-! ## Concrete fixtures used by witnesses and counterexamples -/

/-- A UTC timezone value. -/
def tzUTC : TZ := ⟨0⟩

/-- A city resolver that always fails (the external collaborator is
irrelevant to the scenarios below, which never exit a `WAIT_FOR_TZ*`
state on a success path that matters). -/
def noCity : Str → Except Err TZ := fun _ => .error .invalidLocation

/-! ## C4 and C7: advancing a reminder -/

/-- C4 (amended): advancing a due reminder succeeds, adds exactly 24 hours
to `next_time_ts` and changes nothing else; immediately afterwards the
reminder is no longer due at the same `now` provided it was due by less
than 24 hours, while a reminder overdue by 24 hours or more remains due
even after the advance. -/
theorem c4_advance_due (r : Reminder) (now : Int) (hdue : r.isNotifyNeeded now = true) :
    ∃ r1, r.updateNextTime now = .ok r1 ∧
      r1.next_time_ts = r.next_time_ts + 86400 ∧
      r1.hour = r.hour ∧ r1.minutes = r.minutes ∧ r1.tz = r.tz ∧
      (now < r.next_time_ts + 86400 → r1.isNotifyNeeded now = false) ∧
      (r.next_time_ts + 86400 ≤ now → r1.isNotifyNeeded now = true) := by
  refine ⟨{ r with next_time_ts := r.next_time_ts + 86400 }, ?_, rfl, rfl, rfl, rfl, ?_, ?_⟩
  · simp [Reminder.updateNextTime, hdue]
  · intro h
    simp only [Reminder.isNotifyNeeded, decide_eq_false_iff_not]
    omega
  · intro h
    simp only [Reminder.isNotifyNeeded, decide_eq_true_eq]
    omega

/-- C4 witness: a concrete due reminder advances by exactly one day and is
then no longer due. -/
theorem c4_advance_due_witness :
    ∃ r1, (Reminder.mk 7 0 30 tzUTC).updateNextTime 100 = .ok r1 ∧
      r1.next_time_ts = 30 + 86400 ∧
      r1.hour = 7 ∧ r1.minutes = 0 ∧ r1.tz = tzUTC ∧
      ((100 : Int) < 30 + 86400 → r1.isNotifyNeeded 100 = false) ∧
      ((30 : Int) + 86400 ≤ 100 → r1.isNotifyNeeded 100 = true) :=
  c4_advance_due (Reminder.mk 7 0 30 tzUTC) 100 (by decide)

/-- C4 counterexample: a reminder overdue by more than 24 hours
(`next_time_ts = 0`, `now = 200000`) is due, advances to 86400, and is
STILL due at the same `now`, contradicting the claim that `isDue(now)` is
false immediately after `advance(now)`. -/
theorem c4_overdue_cex :
    (Reminder.mk 7 0 0 tzUTC).isNotifyNeeded 200000 = true ∧
    (Reminder.mk 7 0 0 tzUTC).updateNextTime 200000 = .ok (Reminder.mk 7 0 86400 tzUTC) ∧
    (Reminder.mk 7 0 86400 tzUTC).isNotifyNeeded 200000 = true := by
  refine ⟨rfl, ?_, rfl⟩
  simp [Reminder.updateNextTime, Reminder.isNotifyNeeded]

/-- C7: advancing a reminder that is not due fails with the
premature-advance error (and, the call producing no reminder, leaves
`next_time_ts` unchanged). -/
theorem c7_advance_premature (r : Reminder) (now : Int)
    (h : r.isNotifyNeeded now = false) :
    r.updateNextTime now = .error .prematureAdvance := by
  simp [Reminder.updateNextTime, h]

/-- C7 witness: a concrete not-yet-due reminder fails to advance. -/
theorem c7_advance_premature_witness :
    (Reminder.mk 7 0 500 tzUTC).updateNextTime 100 = .error .prematureAdvance :=
  c7_advance_premature (Reminder.mk 7 0 500 tzUTC) 100 (by decide)

/-! ## C9: the forgot tracker -/

/-- C9 (amended): the tracker is never due when `latest_sent_ts` is `None`;
after `update` at a NONZERO instant `T` it is due exactly when the
minute-truncated `T` plus 60 minutes is at or before `now` (in particular
due at `T + 61min`, not due at `T + 59min`).  At `T = 0` the stored
timestamp `0.0` is falsy in Python, so the tracker behaves as never
notified. -/
theorem c9_forgot_due :
    (∀ now : Int, (ReminderForgot.mk none).isNotifyNeeded now = false) ∧
    (∀ (f : ReminderForgot) (T now : Int), T ≠ 0 →
      ((f.update T).isNotifyNeeded now = true ↔ T - T % 60 + 3600 ≤ now)) ∧
    (∀ (f : ReminderForgot) (T : Int), T ≠ 0 →
      (f.update T).isNotifyNeeded (T + 3660) = true ∧
      (f.update T).isNotifyNeeded (T + 3540) = false) := by
  refine ⟨fun _ => rfl, ?_, ?_⟩
  · intro f T now hT
    simp [ReminderForgot.update, ReminderForgot.isNotifyNeeded, hT]
  · intro f T hT
    constructor
    · simp only [ReminderForgot.update, ReminderForgot.isNotifyNeeded, if_neg hT,
        decide_eq_true_eq]
      omega
    · simp only [ReminderForgot.update, ReminderForgot.isNotifyNeeded, if_neg hT,
        decide_eq_false_iff_not]
      omega

/-- C9 witness: concrete instance of the amended claim at `T = 60`. -/
theorem c9_forgot_due_witness :
    ((ReminderForgot.mk none).update 60).isNotifyNeeded 3720 = true ∧
    ((ReminderForgot.mk none).update 60).isNotifyNeeded 3600 = false :=
  c9_forgot_due.2.2 (ReminderForgot.mk none) 60 (by decide)

/-- C9 counterexample: after `update` at `T = 0` the tracker is NOT due at
`now = 7200`, although the minute-truncated `T` plus 60 minutes (3600) is
before `now`; the claim's "true exactly when" fails at `T = 0` because
`if not self.latest_sent_ts` treats the float `0.0` as never-notified. -/
theorem c9_forgot_zero_cex :
    ((ReminderForgot.mk none).update 0).isNotifyNeeded 7200 = false ∧
    ((0 : Int) - 0 % 60) + 3600 ≤ 7200 := by
  exact ⟨rfl, by decide⟩

/-! ## Decimal parsing helpers -/

/-- The `Nat.digitChar` of a digit below 10 is an ASCII digit character. -/
theorem digitChar_isDigit {d : Nat} (h : d < 10) : (Nat.digitChar d).isDigit = true := by
  interval_cases d <;> decide

/-- The `Nat.digitChar` round-trips through the ASCII code point. -/
theorem digitChar_val {d : Nat} (h : d < 10) : (Nat.digitChar d).toNat - 48 = d := by
  interval_cases d <;> decide

/-- Folding the decimal accumulator over a reversed little-endian digit
list evaluates the digits. -/
theorem foldl_decimal_reverse (l : List Nat) (k : Nat) :
    l.reverse.foldl (fun a d => 10 * a + d) k = k * 10 ^ l.length + Nat.ofDigits 10 l := by
  induction l generalizing k with
  | nil => simp
  | cons d t ih =>
    rw [List.reverse_cons, List.foldl_append, ih]
    simp only [List.foldl_cons, List.foldl_nil, List.length_cons, Nat.ofDigits_cons, pow_succ]
    ring

/-- The decimal rendering of `n` evaluates back to `n`. -/
theorem digitsVal_natRepr (n : Nat) : digitsVal (natRepr n) = n := by
  unfold natRepr
  by_cases h : n = 0
  · subst h; decide
  · rw [if_neg h]
    unfold digitsVal
    rw [List.foldl_map]
    rw [List.foldl_ext _ (fun a d => 10 * a + d) 0
      (fun a d hd => by
        rw [digitChar_val (Nat.digits_lt_base (by norm_num) (List.mem_reverse.mp hd))])]
    rw [foldl_decimal_reverse]
    simp [Nat.ofDigits_digits]

/-- The decimal rendering is never empty. -/
theorem natRepr_ne_nil (n : Nat) : natRepr n ≠ [] := by
  unfold natRepr
  by_cases h : n = 0
  · simp [h]
  · rw [if_neg h]
    simp [Nat.digits_ne_nil_iff_ne_zero.mpr h]

/-- Every character of the decimal rendering is an ASCII digit. -/
theorem natRepr_all_digits (n : Nat) : ∀ c ∈ natRepr n, c.isDigit = true := by
  intro c hc
  unfold natRepr at hc
  by_cases h : n = 0
  · rw [if_pos h] at hc
    simp at hc
    subst hc; rfl
  · rw [if_neg h] at hc
    obtain ⟨d, hd, rfl⟩ := List.mem_map.mp hc
    exact digitChar_isDigit (Nat.digits_lt_base (by norm_num) (List.mem_reverse.mp hd))

/-- Rendered length of a number below 100 is at most two characters. -/
theorem natRepr_length_le {n : Nat} (h : n < 100) : (natRepr n).length ≤ 2 := by
  unfold natRepr
  by_cases h0 : n = 0
  · simp [h0]
  · rw [if_neg h0]
    simp only [List.length_map, List.length_reverse]
    rw [Nat.digits_len 10 n (by norm_num) h0]
    have : Nat.log 10 n < 2 := Nat.log_lt_of_lt_pow h0 (by norm_num; omega)
    omega

/-- Rendered length of a number at least 100 is at least three characters. -/
theorem natRepr_length_ge {n : Nat} (h : 100 ≤ n) : 3 ≤ (natRepr n).length := by
  unfold natRepr
  rw [if_neg (by omega)]
  simp only [List.length_map, List.length_reverse]
  by_contra hc
  have hlt : n < 10 ^ (Nat.digits 10 n).length :=
    Nat.lt_base_pow_length_digits (by norm_num)
  have : 10 ^ (Nat.digits 10 n).length ≤ 10 ^ 2 := Nat.pow_le_pow_right (by norm_num) (by omega)
  norm_num at this
  omega

/-- Nonempty-case unfolding of `pyInt`. -/
theorem pyInt_cons (c : Char) (rest : Str) :
    pyInt (c :: rest) =
      if c = '+' then
        if !rest.isEmpty && rest.all Char.isDigit then some ((digitsVal rest : Nat) : Int)
        else none
      else if c = '-' then
        if !rest.isEmpty && rest.all Char.isDigit then some (-((digitsVal rest : Nat) : Int))
        else none
      else
        if (c :: rest).all Char.isDigit then some ((digitsVal (c :: rest) : Nat) : Int)
        else none := rfl

/-- Python `int` evaluates the decimal rendering back to the number. -/
theorem pyInt_natRepr (n : Nat) : pyInt (natRepr n) = some (n : Int) := by
  obtain ⟨c, cs, hccs⟩ : ∃ c cs, natRepr n = c :: cs := by
    cases h : natRepr n with
    | nil => exact absurd h (natRepr_ne_nil n)
    | cons c cs => exact ⟨c, cs, rfl⟩
  have hdig : c.isDigit = true := natRepr_all_digits n c (by rw [hccs]; exact List.mem_cons_self c cs)
  have hplus : ¬ c = '+' := by
    intro e; rw [e] at hdig; exact absurd hdig (by decide)
  have hminus : ¬ c = '-' := by
    intro e; rw [e] at hdig; exact absurd hdig (by decide)
  have hall : (c :: cs).all Char.isDigit = true := by
    rw [List.all_eq_true]
    intro x hx
    exact natRepr_all_digits n x (by rw [hccs]; exact hx)
  rw [hccs, pyInt_cons, if_neg hplus, if_neg hminus, if_pos hall, ← hccs, digitsVal_natRepr]

/-- A character that fails `isDigit` never occurs in a decimal rendering. -/
theorem not_mem_natRepr {c : Char} (hc : c.isDigit = false) (n : Nat) : c ∉ natRepr n := by
  intro h
  rw [natRepr_all_digits n c h] at hc
  exact Bool.noConfusion hc

/-- Cons-case unfolding of `splitChar`. -/
theorem splitChar_cons (sep c : Char) (rest : Str) :
    splitChar sep (c :: rest) =
      if c = sep then [] :: splitChar sep rest
      else
        match splitChar sep rest with
        | [] => [[c]]
        | g :: gs => (c :: g) :: gs := rfl

/-- The `str.split` around a separator-free string. -/
theorem splitChar_not_mem {sep : Char} {s : Str} (h : sep ∉ s) : splitChar sep s = [s] := by
  induction s with
  | nil => rfl
  | cons c cs ih =>
    have hc : ¬ c = sep := fun e => h (e ▸ List.mem_cons_self c cs)
    rw [splitChar_cons, if_neg hc, ih (fun hm => h (List.mem_cons_of_mem c hm))]

/-- The `str.split` at the first separator occurrence. -/
theorem splitChar_append {sep : Char} {s1 : Str} (s2 : Str) (h : sep ∉ s1) :
    splitChar sep (s1 ++ sep :: s2) = s1 :: splitChar sep s2 := by
  induction s1 with
  | nil =>
    rw [List.nil_append, splitChar_cons, if_pos rfl]
  | cons c cs ih =>
    have hc : ¬ c = sep := fun e => h (e ▸ List.mem_cons_self c cs)
    have ihe := ih (fun hm => h (List.mem_cons_of_mem c hm))
    rw [List.cons_append, splitChar_cons, if_neg hc, ihe]

/-! ## Field parsing and next-time lemmas -/

/-- The `Reminder._parse` accepts the rendering of any number below 100. -/
theorem parseField_natRepr {n : Nat} (h : n < 100) :
    Reminder.parseField (natRepr n) = .ok ((n : Nat) : Int) := by
  have hlen2 := natRepr_length_le h
  have hlen1 : 0 < (natRepr n).length := List.length_pos.mpr (natRepr_ne_nil n)
  simp only [Reminder.parseField]
  rw [if_neg (by omega), pyInt_natRepr]

/-- The `Reminder._parse` rejects the rendering of any number at least 100
(three or more characters). -/
theorem parseField_long {n : Nat} (h : 100 ≤ n) :
    Reminder.parseField (natRepr n) = .error .invalidTimeFormat := by
  have := natRepr_length_ge h
  simp only [Reminder.parseField]
  rw [if_pos (by omega)]

/-- The `Measurement._parse` accepts the rendering of any number up to 1000. -/
theorem mParseField_natRepr {n : Nat} (h : n ≤ 1000) :
    Measurement.parseField (natRepr n) = .ok ((n : Nat) : Int) := by
  simp only [Measurement.parseField, pyInt_natRepr]
  rw [if_neg (by omega)]

/-- The `_get_next_time` with in-range hour and minute lands strictly after the
current local instant and within 24 hours of it. -/
theorem getNextTime_ok {H M : Int} (hH0 : 0 ≤ H) (hH23 : H ≤ 23) (hM0 : 0 ≤ M) (hM59 : M ≤ 59)
    (tz : TZ) (now : Int) :
    ∃ s, Reminder.getNextTime H M tz now = .ok s ∧
      now + tz.offset < s ∧ s ≤ now + tz.offset + 86400 := by
  simp only [Reminder.getNextTime]
  rw [if_neg (by omega), if_neg (by omega)]
  refine ⟨_, rfl, ?_, ?_⟩ <;> · split <;> omega

/-- The `_get_next_time_ts` with in-range hour and minute: the epoch result is
strictly in the future and within 24 hours of `now`. -/
theorem getNextTimeTs_ok {H M : Int} (hH0 : 0 ≤ H) (hH23 : H ≤ 23) (hM0 : 0 ≤ M) (hM59 : M ≤ 59)
    (tz : TZ) (now : Int) :
    ∃ t, Reminder.getNextTimeTs H M tz now = .ok t ∧ now < t ∧ t ≤ now + 86400 := by
  obtain ⟨s, hs, h1, h2⟩ := getNextTime_ok hH0 hH23 hM0 hM59 tz now
  refine ⟨s - tz.offset, ?_, by omega, by omega⟩
  rw [Reminder.getNextTimeTs, hs]
  rfl

/-- The `datetime.replace` rejects `hour = 24` (and any hour above 23). -/
theorem getNextTimeTs_badHour {H M : Int} (h : H < 0 ∨ 23 < H) (tz : TZ) (now : Int) :
    Reminder.getNextTimeTs H M tz now = .error .replaceOutOfBounds := by
  rw [Reminder.getNextTimeTs, Reminder.getNextTime]
  rw [if_pos h]
  rfl

/-- The `datetime.replace` rejects `minute = 60` (and any minute above 59). -/
theorem getNextTimeTs_badMinute {H M : Int} (hH0 : 0 ≤ H) (hH23 : H ≤ 23)
    (h : M < 0 ∨ 59 < M) (tz : TZ) (now : Int) :
    Reminder.getNextTimeTs H M tz now = .error .replaceOutOfBounds := by
  rw [Reminder.getNextTimeTs, Reminder.getNextTime]
  rw [if_neg (by omega), if_pos h]
  rfl

/-- Code point bounds of an ASCII digit character. -/
theorem digit_toNat_bounds {c : Char} (h : c.isDigit = true) :
    48 ≤ c.toNat ∧ c.toNat ≤ 57 := by
  simp [Char.isDigit] at h
  exact h

/-- A digit character is neither a plus nor a minus sign. -/
theorem digit_ne_sign {c : Char} (h : c.isDigit = true) : c ≠ '+' ∧ c ≠ '-' := by
  constructor <;> · intro e; rw [e] at h; exact absurd h (by decide)

/-- Python `int` on a nonempty all-digit string (leading zeros included)
yields its decimal value. -/
theorem pyInt_digits {s : Str} (hne : s ≠ []) (hall : s.all Char.isDigit = true) :
    pyInt s = some ((digitsVal s : Nat) : Int) := by
  cases s with
  | nil => exact absurd rfl hne
  | cons c cs =>
    have hdig : c.isDigit = true := List.all_eq_true.mp hall c (List.mem_cons_self c cs)
    obtain ⟨hp, hm⟩ := digit_ne_sign hdig
    rw [pyInt_cons, if_neg hp, if_neg hm, if_pos hall]

/-- A non-digit character does not occur in an all-digit string. -/
theorem not_mem_of_all_digits {c : Char} {s : Str} (hc : c.isDigit = false)
    (hall : s.all Char.isDigit = true) : c ∉ s := by
  intro hmem
  rw [List.all_eq_true.mp hall c hmem] at hc
  exact Bool.noConfusion hc

/-- The decimal value of an at-most-two-character digit string is below
100. -/
theorem digitsVal_le_two {s : Str} (hall : s.all Char.isDigit = true)
    (h : s.length ≤ 2) : digitsVal s ≤ 99 := by
  rcases s with _ | ⟨c, _ | ⟨d, _ | ⟨e, rest⟩⟩⟩
  · decide
  · simp only [List.all_cons, List.all_nil, Bool.and_true] at hall
    obtain ⟨h1, h2⟩ := digit_toNat_bounds hall
    simp only [digitsVal, List.foldl_cons, List.foldl_nil]
    omega
  · simp only [List.all_cons, List.all_nil, Bool.and_true, Bool.and_eq_true] at hall
    obtain ⟨hc, hd⟩ := hall
    obtain ⟨hc1, hc2⟩ := digit_toNat_bounds hc
    obtain ⟨hd1, hd2⟩ := digit_toNat_bounds hd
    simp only [digitsVal, List.foldl_cons, List.foldl_nil]
    omega
  · simp only [List.length_cons] at h
    omega

/-- The `Reminder._parse` accepts any 1-2 character digit string
(zero-padded or not) with its decimal value. -/
theorem parseField_digits {s : Str} (h1 : 1 ≤ s.length) (h2 : s.length ≤ 2)
    (hall : s.all Char.isDigit = true) :
    Reminder.parseField s = .ok ((digitsVal s : Nat) : Int) := by
  have hne : s ≠ [] := by
    intro e
    rw [e] at h1
    exact absurd h1 (by decide)
  simp only [Reminder.parseField]
  rw [if_neg (by omega), pyInt_digits hne hall]

/-- The `Reminder._parse` rejects any field of length 0 or of length 3 or
more. -/
theorem parseField_badLen {s : Str} (h : s.length < 1 ∨ 2 < s.length) :
    Reminder.parseField s = .error .invalidTimeFormat := by
  simp only [Reminder.parseField]
  rw [if_pos (by omega)]

/-- The `Reminder.new` on an in-range 1-2-digit-per-field time string
`"H:M"` (hour value up to 23, minute value up to 59, leading zeros
allowed) succeeds with the parsed fields and a next-due instant in
`(now, now + 24h]`. -/
theorem reminderNew_ok {s1 s2 : Str} (h1a : 1 ≤ s1.length) (h1b : s1.length ≤ 2)
    (h2a : 1 ≤ s2.length) (h2b : s2.length ≤ 2) (hall1 : s1.all Char.isDigit = true)
    (hall2 : s2.all Char.isDigit = true) (hh : digitsVal s1 ≤ 23) (hm : digitsVal s2 ≤ 59)
    (tz : TZ) (now : Int) :
    ∃ r, Reminder.new (s1 ++ ':' :: s2) (some tz) now = .ok r ∧
      r.hour = (digitsVal s1 : Int) ∧ r.minutes = (digitsVal s2 : Int) ∧ r.tz = tz ∧
      now < r.next_time_ts ∧ r.next_time_ts ≤ now + 86400 := by
  have hs1 : ':' ∉ s1 := not_mem_of_all_digits (by decide) hall1
  have hs2 : ':' ∉ s2 := not_mem_of_all_digits (by decide) hall2
  obtain ⟨t, ht, hb1, hb2⟩ := getNextTimeTs_ok (H := (digitsVal s1 : Int))
    (M := (digitsVal s2 : Int)) (by omega) (by omega) (by omega) (by omega) tz now
  refine ⟨⟨digitsVal s1, digitsVal s2, t, tz⟩, ?_, rfl, rfl, rfl, hb1, hb2⟩
  simp only [Reminder.new, splitChar_append _ hs1, splitChar_not_mem hs2,
    parseField_digits h1a h1b hall1, parseField_digits h2a h2b hall2,
    if_neg (show ¬((digitsVal s1 : Int) < 0 ∨ 24 < (digitsVal s1 : Int)) by omega),
    if_neg (show ¬((digitsVal s2 : Int) < 0 ∨ 60 < (digitsVal s2 : Int)) by omega), ht]

/-- The `Reminder.new` on a time string whose hour field reads 24 and
whose minute value is at most 60 passes the explicit bound checks but
fails inside `datetime.replace`. -/
theorem reminderNew_hour24 {s1 s2 : Str} (h1a : 1 ≤ s1.length) (h1b : s1.length ≤ 2)
    (h2a : 1 ≤ s2.length) (h2b : s2.length ≤ 2) (hall1 : s1.all Char.isDigit = true)
    (hall2 : s2.all Char.isDigit = true) (hh : digitsVal s1 = 24) (hm : digitsVal s2 ≤ 60)
    (tz : TZ) (now : Int) :
    Reminder.new (s1 ++ ':' :: s2) (some tz) now = .error .replaceOutOfBounds := by
  have hs1 : ':' ∉ s1 := not_mem_of_all_digits (by decide) hall1
  have hs2 : ':' ∉ s2 := not_mem_of_all_digits (by decide) hall2
  simp only [Reminder.new, splitChar_append _ hs1, splitChar_not_mem hs2,
    parseField_digits h1a h1b hall1, parseField_digits h2a h2b hall2,
    if_neg (show ¬((digitsVal s1 : Int) < 0 ∨ 24 < (digitsVal s1 : Int)) by omega),
    if_neg (show ¬((digitsVal s2 : Int) < 0 ∨ 60 < (digitsVal s2 : Int)) by omega),
    getNextTimeTs_badHour
      (show (digitsVal s1 : Int) < 0 ∨ 23 < (digitsVal s1 : Int) by omega) tz now]

/-- The `Reminder.new` on a time string whose hour value is at most 23 and
whose minute field reads 60 passes the explicit bound checks but fails
inside `datetime.replace`. -/
theorem reminderNew_minute60 {s1 s2 : Str} (h1a : 1 ≤ s1.length) (h1b : s1.length ≤ 2)
    (h2a : 1 ≤ s2.length) (h2b : s2.length ≤ 2) (hall1 : s1.all Char.isDigit = true)
    (hall2 : s2.all Char.isDigit = true) (hh : digitsVal s1 ≤ 23) (hm : digitsVal s2 = 60)
    (tz : TZ) (now : Int) :
    Reminder.new (s1 ++ ':' :: s2) (some tz) now = .error .replaceOutOfBounds := by
  have hs1 : ':' ∉ s1 := not_mem_of_all_digits (by decide) hall1
  have hs2 : ':' ∉ s2 := not_mem_of_all_digits (by decide) hall2
  simp only [Reminder.new, splitChar_append _ hs1, splitChar_not_mem hs2,
    parseField_digits h1a h1b hall1, parseField_digits h2a h2b hall2,
    if_neg (show ¬((digitsVal s1 : Int) < 0 ∨ 24 < (digitsVal s1 : Int)) by omega),
    if_neg (show ¬((digitsVal s2 : Int) < 0 ∨ 60 < (digitsVal s2 : Int)) by omega),
    getNextTimeTs_badMinute (show (0 : Int) ≤ (digitsVal s1 : Int) by omega)
      (show (digitsVal s1 : Int) ≤ 23 by omega)
      (show (digitsVal s2 : Int) < 0 ∨ 59 < (digitsVal s2 : Int) by omega) tz now]

/-- The `Reminder.new` rejects a parsed two-digit hour above 24 with the
time-format error from the bound check. -/
theorem reminderNew_badHour {s1 s2 : Str} (h1a : 1 ≤ s1.length) (h1b : s1.length ≤ 2)
    (h2a : 1 ≤ s2.length) (h2b : s2.length ≤ 2) (hall1 : s1.all Char.isDigit = true)
    (hall2 : s2.all Char.isDigit = true) (hh : 24 < digitsVal s1)
    (tzo : Option TZ) (now : Int) :
    Reminder.new (s1 ++ ':' :: s2) tzo now = .error .invalidTimeFormat := by
  have hs1 : ':' ∉ s1 := not_mem_of_all_digits (by decide) hall1
  have hs2 : ':' ∉ s2 := not_mem_of_all_digits (by decide) hall2
  simp only [Reminder.new, splitChar_append _ hs1, splitChar_not_mem hs2,
    parseField_digits h1a h1b hall1, parseField_digits h2a h2b hall2,
    if_pos (show (digitsVal s1 : Int) < 0 ∨ 24 < (digitsVal s1 : Int) by omega)]

/-- The `Reminder.new` rejects a parsed two-digit minute above 60 (hour in
bounds) with the time-format error from the bound check. -/
theorem reminderNew_badMinute {s1 s2 : Str} (h1a : 1 ≤ s1.length) (h1b : s1.length ≤ 2)
    (h2a : 1 ≤ s2.length) (h2b : s2.length ≤ 2) (hall1 : s1.all Char.isDigit = true)
    (hall2 : s2.all Char.isDigit = true) (hh : digitsVal s1 ≤ 24) (hm : 60 < digitsVal s2)
    (tzo : Option TZ) (now : Int) :
    Reminder.new (s1 ++ ':' :: s2) tzo now = .error .invalidTimeFormat := by
  have hs1 : ':' ∉ s1 := not_mem_of_all_digits (by decide) hall1
  have hs2 : ':' ∉ s2 := not_mem_of_all_digits (by decide) hall2
  simp only [Reminder.new, splitChar_append _ hs1, splitChar_not_mem hs2,
    parseField_digits h1a h1b hall1, parseField_digits h2a h2b hall2,
    if_neg (show ¬((digitsVal s1 : Int) < 0 ∨ 24 < (digitsVal s1 : Int)) by omega),
    if_pos (show (digitsVal s2 : Int) < 0 ∨ 60 < (digitsVal s2 : Int) by omega)]

/-- The `Reminder.new` rejects a malformed-length hour field (empty, or
three or more characters) with the time-format error from the length
check. -/
theorem reminderNew_badLen1 {s1 s2 : Str} (hs1 : ':' ∉ s1) (hs2 : ':' ∉ s2)
    (h : s1.length < 1 ∨ 2 < s1.length) (tzo : Option TZ) (now : Int) :
    Reminder.new (s1 ++ ':' :: s2) tzo now = .error .invalidTimeFormat := by
  simp only [Reminder.new, splitChar_append _ hs1, splitChar_not_mem hs2,
    parseField_badLen h]

/-- The `Reminder.new` rejects a malformed-length minute field after a
well-formed hour field, with the time-format error from the length
check. -/
theorem reminderNew_badLen2 {s1 s2 : Str} (h1a : 1 ≤ s1.length) (h1b : s1.length ≤ 2)
    (hall1 : s1.all Char.isDigit = true) (hs2 : ':' ∉ s2)
    (h : s2.length < 1 ∨ 2 < s2.length) (tzo : Option TZ) (now : Int) :
    Reminder.new (s1 ++ ':' :: s2) tzo now = .error .invalidTimeFormat := by
  have hs1 : ':' ∉ s1 := not_mem_of_all_digits (by decide) hall1
  simp only [Reminder.new, splitChar_append _ hs1, splitChar_not_mem hs2,
    parseField_digits h1a h1b hall1, parseField_badLen h]

/-! ## C3: Reminder.create -/

/-- C3 (amended): for every time string `"H:M"` whose two fields are 1-2
digit strings (leading zeros allowed), `Reminder.new` succeeds with the
fields' decimal values and a `next_time_ts` strictly in the future and
within 24 hours of `now` whenever the hour value is at most 23 and the
minute value at most 59; the boundary values the explicit checks accept
(hour 24, minute 60) pass the bound checks but fail with the `ValueError`
raised by `datetime.replace`; two-digit values above the accepted bounds
fail the bound check, and a field that is empty or longer than two
characters fails the length check, both with the time-format error. -/
theorem c3_reminder_create :
    (∀ (s1 s2 : Str) (tz : TZ) (now : Int),
      1 ≤ s1.length → s1.length ≤ 2 → 1 ≤ s2.length → s2.length ≤ 2 →
      s1.all Char.isDigit = true → s2.all Char.isDigit = true →
      digitsVal s1 ≤ 23 → digitsVal s2 ≤ 59 →
      ∃ r, Reminder.new (s1 ++ ':' :: s2) (some tz) now = .ok r ∧
        r.hour = (digitsVal s1 : Int) ∧ r.minutes = (digitsVal s2 : Int) ∧
        now < r.next_time_ts ∧ r.next_time_ts ≤ now + 86400) ∧
    (∀ (s1 s2 : Str) (tz : TZ) (now : Int),
      1 ≤ s1.length → s1.length ≤ 2 → 1 ≤ s2.length → s2.length ≤ 2 →
      s1.all Char.isDigit = true → s2.all Char.isDigit = true →
      digitsVal s1 = 24 → digitsVal s2 ≤ 60 →
      Reminder.new (s1 ++ ':' :: s2) (some tz) now = .error .replaceOutOfBounds) ∧
    (∀ (s1 s2 : Str) (tz : TZ) (now : Int),
      1 ≤ s1.length → s1.length ≤ 2 → 1 ≤ s2.length → s2.length ≤ 2 →
      s1.all Char.isDigit = true → s2.all Char.isDigit = true →
      digitsVal s1 ≤ 23 → digitsVal s2 = 60 →
      Reminder.new (s1 ++ ':' :: s2) (some tz) now = .error .replaceOutOfBounds) ∧
    (∀ (s1 s2 : Str) (tzo : Option TZ) (now : Int),
      1 ≤ s1.length → s1.length ≤ 2 → 1 ≤ s2.length → s2.length ≤ 2 →
      s1.all Char.isDigit = true → s2.all Char.isDigit = true → 24 < digitsVal s1 →
      Reminder.new (s1 ++ ':' :: s2) tzo now = .error .invalidTimeFormat) ∧
    (∀ (s1 s2 : Str) (tzo : Option TZ) (now : Int),
      1 ≤ s1.length → s1.length ≤ 2 → 1 ≤ s2.length → s2.length ≤ 2 →
      s1.all Char.isDigit = true → s2.all Char.isDigit = true →
      digitsVal s1 ≤ 24 → 60 < digitsVal s2 →
      Reminder.new (s1 ++ ':' :: s2) tzo now = .error .invalidTimeFormat) ∧
    (∀ (s1 s2 : Str) (tzo : Option TZ) (now : Int), ':' ∉ s1 → ':' ∉ s2 →
      (s1.length < 1 ∨ 2 < s1.length) →
      Reminder.new (s1 ++ ':' :: s2) tzo now = .error .invalidTimeFormat) ∧
    (∀ (s1 s2 : Str) (tzo : Option TZ) (now : Int),
      1 ≤ s1.length → s1.length ≤ 2 → s1.all Char.isDigit = true → ':' ∉ s2 →
      (s2.length < 1 ∨ 2 < s2.length) →
      Reminder.new (s1 ++ ':' :: s2) tzo now = .error .invalidTimeFormat) := by
  refine ⟨?_, ?_, ?_, ?_, ?_, ?_, ?_⟩
  · intro s1 s2 tz now h1a h1b h2a h2b hall1 hall2 hh hm
    obtain ⟨r, hr, e1, e2, e3, e4, e5⟩ :=
      reminderNew_ok h1a h1b h2a h2b hall1 hall2 hh hm tz now
    exact ⟨r, hr, e1, e2, e4, e5⟩
  · intro s1 s2 tz now h1a h1b h2a h2b hall1 hall2 hh hm
    exact reminderNew_hour24 h1a h1b h2a h2b hall1 hall2 hh hm tz now
  · intro s1 s2 tz now h1a h1b h2a h2b hall1 hall2 hh hm
    exact reminderNew_minute60 h1a h1b h2a h2b hall1 hall2 hh hm tz now
  · intro s1 s2 tzo now h1a h1b h2a h2b hall1 hall2 hh
    exact reminderNew_badHour h1a h1b h2a h2b hall1 hall2 hh tzo now
  · intro s1 s2 tzo now h1a h1b h2a h2b hall1 hall2 hh hm
    exact reminderNew_badMinute h1a h1b h2a h2b hall1 hall2 hh hm tzo now
  · intro s1 s2 tzo now hs1 hs2 h
    exact reminderNew_badLen1 hs1 hs2 h tzo now
  · intro s1 s2 tzo now h1a h1b hall1 hs2 h
    exact reminderNew_badLen2 h1a h1b hall1 hs2 h tzo now

/-- C3 witness: concrete instances of the amended claim, including the
zero-padded form `"07:30"` the bot's inbound regex admits: success at
`"07:30"`, the two `datetime.replace` failures at `"24:30"` and
`"07:60"`, the bound failures at `"25:30"` and `"07:61"`, and the length
failures at `"007:30"` and `"07:305"`. -/
theorem c3_reminder_create_witness :
    (∃ r, Reminder.new (("07".data) ++ ':' :: ("30".data)) (some tzUTC) 1000 = .ok r ∧
      r.hour = (digitsVal ("07".data) : Int) ∧ r.minutes = (digitsVal ("30".data) : Int) ∧
      1000 < r.next_time_ts ∧ r.next_time_ts ≤ 1000 + 86400) ∧
    Reminder.new (("24".data) ++ ':' :: ("30".data)) (some tzUTC) 1000 =
      .error .replaceOutOfBounds ∧
    Reminder.new (("07".data) ++ ':' :: ("60".data)) (some tzUTC) 1000 =
      .error .replaceOutOfBounds ∧
    Reminder.new (("25".data) ++ ':' :: ("30".data)) none 1000 =
      .error .invalidTimeFormat ∧
    Reminder.new (("07".data) ++ ':' :: ("61".data)) none 1000 =
      .error .invalidTimeFormat ∧
    Reminder.new (("007".data) ++ ':' :: ("30".data)) none 1000 =
      .error .invalidTimeFormat ∧
    Reminder.new (("07".data) ++ ':' :: ("305".data)) none 1000 =
      .error .invalidTimeFormat :=
  ⟨c3_reminder_create.1 ("07".data) ("30".data) tzUTC 1000 (by decide) (by decide)
     (by decide) (by decide) (by decide) (by decide) (by decide) (by decide),
   c3_reminder_create.2.1 ("24".data) ("30".data) tzUTC 1000 (by decide) (by decide)
     (by decide) (by decide) (by decide) (by decide) (by decide) (by decide),
   c3_reminder_create.2.2.1 ("07".data) ("60".data) tzUTC 1000 (by decide) (by decide)
     (by decide) (by decide) (by decide) (by decide) (by decide) (by decide),
   c3_reminder_create.2.2.2.1 ("25".data) ("30".data) none 1000 (by decide) (by decide)
     (by decide) (by decide) (by decide) (by decide) (by decide),
   c3_reminder_create.2.2.2.2.1 ("07".data) ("61".data) none 1000 (by decide) (by decide)
     (by decide) (by decide) (by decide) (by decide) (by decide) (by decide),
   c3_reminder_create.2.2.2.2.2.1 ("007".data) ("30".data) none 1000 (by decide)
     (by decide) (by decide),
   c3_reminder_create.2.2.2.2.2.2 ("07".data) ("305".data) none 1000 (by decide)
     (by decide) (by decide) (by decide) (by decide)⟩

/-- C3 counterexample: the input `"24:30"` is within the claim's stated
domain (hour in `[0, 24]`, minute in `[0, 60]`, both fields 1-2 digits),
yet `Reminder.new` does not succeed: it raises the `ValueError` produced
by `datetime.replace(hour=24, ...)` after its own bound checks passed. -/
theorem c3_hour24_cex :
    Reminder.new ("24:30".data) (some tzUTC) 1000 = .error .replaceOutOfBounds := by
  rfl

/-! ## C8: Measurement parsing -/

/-- The `Measurement._parse` fails with the range error when the field parses
to an integer outside `[0, 1000]`. -/
theorem mParseField_out {s : Str} {v : Int} (hv : pyInt s = some v)
    (hr : v < 0 ∨ 1000 < v) : Measurement.parseField s = .error .outOfRange := by
  simp only [Measurement.parseField, hv, if_pos hr]

/-- The `Measurement._parse` succeeds on a field parsing inside `[0, 1000]`. -/
theorem mParseField_ok_of {s : Str} {v : Int} (hv : pyInt s = some v) (h0 : 0 ≤ v)
    (h1 : v ≤ 1000) : Measurement.parseField s = .ok v := by
  simp only [Measurement.parseField, hv]
  rw [if_neg (by omega)]

/-- The `Measurement._parse` fails with the malformed error when `int(...)`
fails. -/
theorem mParseField_none {s : Str} (hv : pyInt s = none) :
    Measurement.parseField s = .error .malformedReading := by
  simp only [Measurement.parseField, hv]

/-- The `Measurement.from_string` fails with the malformed error when the
split does not produce exactly two fields (tuple unpacking fails). -/
theorem fromString_badSplit {s : Str} (ts : Int) (h : (splitChar '/' s).length ≠ 2) :
    Measurement.fromString s ts = .error .malformedReading := by
  rcases hs : splitChar '/' s with _ | ⟨a, tl⟩
  · simp [Measurement.fromString, hs]
  · rcases tl with _ | ⟨b, tl2⟩
    · simp [Measurement.fromString, hs]
    · rcases tl2 with _ | ⟨c, tl3⟩
      · rw [hs] at h
        simp at h
      · simp [Measurement.fromString, hs]

/-- C8: `Measurement.from_string` round-trips `"H/L"` for `H, L` in
`[0, 1000]` with the given capture timestamp; a side that parses to an
integer outside `[0, 1000]` yields the range error; a malformed split or
an unparsable side yields the malformed-reading error. -/
theorem c8_measurement_roundtrip :
    (∀ (H L : Nat) (ts : Int), H ≤ 1000 → L ≤ 1000 →
      Measurement.fromString (natRepr H ++ '/' :: natRepr L) ts =
        .ok ⟨(H : Int), (L : Int), ts⟩) ∧
    (∀ (s1 s2 : Str) (v ts : Int), '/' ∉ s1 → '/' ∉ s2 → pyInt s1 = some v →
      (v < 0 ∨ 1000 < v) →
      Measurement.fromString (s1 ++ '/' :: s2) ts = .error .outOfRange) ∧
    (∀ (s1 s2 : Str) (v w ts : Int), '/' ∉ s1 → '/' ∉ s2 → pyInt s1 = some v →
      0 ≤ v → v ≤ 1000 → pyInt s2 = some w → (w < 0 ∨ 1000 < w) →
      Measurement.fromString (s1 ++ '/' :: s2) ts = .error .outOfRange) ∧
    (∀ (s : Str) (ts : Int), (splitChar '/' s).length ≠ 2 →
      Measurement.fromString s ts = .error .malformedReading) ∧
    (∀ (s1 s2 : Str) (ts : Int), '/' ∉ s1 → '/' ∉ s2 → pyInt s1 = none →
      Measurement.fromString (s1 ++ '/' :: s2) ts = .error .malformedReading) ∧
    (∀ (s1 s2 : Str) (v ts : Int), '/' ∉ s1 → '/' ∉ s2 → pyInt s1 = some v →
      0 ≤ v → v ≤ 1000 → pyInt s2 = none →
      Measurement.fromString (s1 ++ '/' :: s2) ts = .error .malformedReading) := by
  refine ⟨?_, ?_, ?_, ?_, ?_, ?_⟩
  · intro H L ts hH hL
    have hs1 : '/' ∉ natRepr H := not_mem_natRepr (by decide) H
    have hs2 : '/' ∉ natRepr L := not_mem_natRepr (by decide) L
    simp only [Measurement.fromString, splitChar_append _ hs1, splitChar_not_mem hs2,
      mParseField_natRepr hH, mParseField_natRepr hL]
  · intro s1 s2 v ts h1 h2 hv hr
    simp only [Measurement.fromString, splitChar_append _ h1, splitChar_not_mem h2,
      mParseField_out hv hr]
  · intro s1 s2 v w ts h1 h2 hv h0 hb hw hr
    simp only [Measurement.fromString, splitChar_append _ h1, splitChar_not_mem h2,
      mParseField_ok_of hv h0 hb, mParseField_out hw hr]
  · intro s ts h
    exact fromString_badSplit ts h
  · intro s1 s2 ts h1 h2 hv
    simp only [Measurement.fromString, splitChar_append _ h1, splitChar_not_mem h2,
      mParseField_none hv]
  · intro s1 s2 v ts h1 h2 hv h0 hb hw
    simp only [Measurement.fromString, splitChar_append _ h1, splitChar_not_mem h2,
      mParseField_ok_of hv h0 hb, mParseField_none hw]

/-- C8 witness: concrete instances (round trip of `"120/70"`, range
failure of `"1001/70"` and of a negative low side, malformed failures of
`"abc"` and `"x/70"`). -/
theorem c8_measurement_roundtrip_witness :
    Measurement.fromString (natRepr 120 ++ '/' :: natRepr 70) 55 =
      .ok ⟨((120 : Nat) : Int), ((70 : Nat) : Int), 55⟩ ∧
    Measurement.fromString ("1001".data ++ '/' :: ("70".data)) 55 = .error .outOfRange ∧
    Measurement.fromString ("120".data ++ '/' :: ("-1".data)) 55 = .error .outOfRange ∧
    Measurement.fromString ("abc".data) 55 = .error .malformedReading ∧
    Measurement.fromString ("x".data ++ '/' :: ("70".data)) 55 = .error .malformedReading :=
  ⟨c8_measurement_roundtrip.1 120 70 55 (by decide) (by decide),
   c8_measurement_roundtrip.2.1 ("1001".data) ("70".data) 1001 55 (by decide) (by decide)
     (by decide) (by decide),
   c8_measurement_roundtrip.2.2.1 ("120".data) ("-1".data) 120 (-1) 55 (by decide) (by decide)
     (by decide) (by decide) (by decide) (by decide) (by decide),
   c8_measurement_roundtrip.2.2.2.1 ("abc".data) 55 (by decide),
   c8_measurement_roundtrip.2.2.2.2.1 ("x".data) ("70".data) 55 (by decide) (by decide) (by decide)⟩

/-! ## Dispatcher fixtures -/

/-- An environment with no inbound text (as the worker passes
`message = None`), at instant 100. -/
def envQuiet : Env := ⟨100, none, noCity⟩

/-- A user sitting in `STOP` with some history and a notified tracker. -/
def uStop : User :=
  { state := .STOP, chat_id := 1, reminder_morning := none, reminder_evening := none,
    reminder_forgot := some ⟨some 42⟩, measurements := [⟨120, 70, 5⟩], tz := some tzUTC }

/-! ## C1: illegal transitions -/

/-- C1 (amended): a transition whose target is unreachable from the
current state fails with `MachineError` and returns the aggregate
unchanged, for every target except `INITIAL`; targeting `INITIAL` (also
unreachable) instead raises the `AttributeError` of a missing trigger,
again leaving the aggregate unchanged; in particular `RECORD` from `STOP`
always fails with `MachineError`. -/
theorem c1_illegal_transition :
    (∀ (env : Env) (u : User) (t : State), t ≠ .INITIAL → reachableFrom u.state t = false →
      transit env u t = (u, [], some .machineError)) ∧
    (∀ (env : Env) (u : User), transit env u .INITIAL = (u, [], some .noSuchTrigger)) ∧
    (∀ (env : Env) (u : User), u.state = .STOP →
      transit env u .RECORD = (u, [], some .machineError)) := by
  refine ⟨?_, ?_, ?_⟩
  · intro env u t ht hr
    cases t <;> simp_all [transit, reachableFrom, triggerSource]
  · intro env u
    simp [transit, triggerSource]
  · intro env u h
    simp [transit, triggerSource, h]

/-- C1 witness: concrete unreachable targets from `STOP` fail with
`MachineError`, via both the generic and the `RECORD`-specific parts. -/
theorem c1_illegal_transition_witness :
    transit envQuiet uStop .NOTIFY_MORNING = (uStop, [], some .machineError) ∧
    transit envQuiet uStop .RECORD = (uStop, [], some .machineError) :=
  ⟨c1_illegal_transition.1 envQuiet uStop .NOTIFY_MORNING (by decide) (by decide),
   c1_illegal_transition.2.2 envQuiet uStop rfl⟩

/-- C1 counterexample: `INITIAL` is a target state unreachable from `STOP`
according to the transition table, yet `transit` fails with the
missing-trigger `AttributeError` (`"to_" + "initial"` is never defined;
the auto-generated trigger is named `to_INITIAL` after the enum member),
not with `MachineError` -- so the caller reports the generic error text,
not the "wrong state, retry" one the claim describes. -/
theorem c1_initial_cex :
    reachableFrom State.STOP State.INITIAL = false ∧
    transit envQuiet uStop .INITIAL = (uStop, [], some .noSuchTrigger) ∧
    Err.noSuchTrigger ≠ Err.machineError := by
  exact ⟨rfl, rfl, by decide⟩

/-! ## C5: recording a measurement from WAIT -/

/-- The `Measurement.from_string` stores the passed capture timestamp
verbatim. -/
theorem fromString_ts {s : Str} {ts : Int} {meas : Measurement}
    (h : Measurement.fromString s ts = .ok meas) : meas.ts = ts := by
  unfold Measurement.fromString at h
  split at h
  · split at h
    · exact absurd h (by simp)
    · split at h
      · exact absurd h (by simp)
      · cases h
        rfl
  · exact absurd h (by simp)

/-- C5 (amended): from `WAIT`, when the inbound text parses as a
measurement and the forgot tracker is present, `transit(RECORD)` succeeds:
it appends exactly that one measurement (captured at `now`) at the end of
the history, leaves the previous entries unchanged, resets the tracker,
sends the acknowledgment, and returns to `WAIT`. -/
theorem c5_record_from_wait :
    ∀ (env : Env) (u : User) (t : Str) (meas : Measurement) (f : ReminderForgot),
      u.state = .WAIT → env.text = some t → Measurement.fromString t env.now = .ok meas →
      u.reminder_forgot = some f →
      transit env u .RECORD =
        ({ u with measurements := u.measurements ++ [meas],
                  reminder_forgot := some f.reset, state := .WAIT },
         [.thanksRecord], none) ∧ meas.ts = env.now := by
  intro env u t meas f hs htext hparse hf
  refine ⟨?_, fromString_ts hparse⟩
  simp [transit, triggerSource, hs, onExit, onEnter, htext, hparse, hf]

/-- A user sitting in `WAIT` with some history and a notified tracker. -/
def uWaiting : User :=
  { state := .WAIT, chat_id := 1, reminder_morning := none, reminder_evening := none,
    reminder_forgot := some ⟨some 42⟩, measurements := [⟨120, 70, 5⟩], tz := some tzUTC }

/-- An environment carrying the inbound text `"130/80"` at instant 100. -/
def envReading : Env := ⟨100, some ("130/80".data), noCity⟩

/-- C5 witness: recording `"130/80"` from `WAIT` appends the parsed
measurement captured at 100, resets the tracker and acknowledges. -/
theorem c5_record_from_wait_witness :
    transit envReading uWaiting .RECORD =
      ({ uWaiting with measurements := uWaiting.measurements ++ [⟨130, 80, 100⟩],
                       reminder_forgot := some (ReminderForgot.reset ⟨some 42⟩),
                       state := .WAIT },
       [.thanksRecord], none) ∧ (Measurement.mk 130 80 100).ts = envReading.now :=
  c5_record_from_wait envReading uWaiting ("130/80".data) ⟨130, 80, 100⟩ ⟨some 42⟩
    rfl rfl rfl rfl

/-- C5 counterexample: from `WAIT` with the unparsable inbound text
`"abc"`, `transit(RECORD)` does NOT succeed: `Measurement.from_string`
raises and the aggregate is left unchanged, contradicting the claim that
the transition always succeeds from `WAIT`. -/
theorem c5_record_malformed_cex :
    transit ⟨100, some ("abc".data), noCity⟩ uWaiting .RECORD =
      (uWaiting, [], some .malformedReading) := by
  rfl

/-! ## C6: stopping -/

/-- C6 (amended): from every state OUTSIDE the five sticky `WAIT_FOR_*`
states (whose exit callbacks run first and may fail or mutate other
fields), `transit(STOP)` succeeds, clears both reminders, sends the
stopped text, ends in `STOP`, and touches nothing else (history, zone,
tracker and chat id keep their values, being untouched fields of the
record update). -/
theorem c6_stop_clears_reminders :
    ∀ (env : Env) (u : User),
      u.state ≠ .WAIT_FOR_MORNING_TIME → u.state ≠ .WAIT_FOR_EVENING_TIME →
      u.state ≠ .WAIT_FOR_TZ → u.state ≠ .WAIT_FOR_TZ_WHEN → u.state ≠ .WAIT_FOR_TZ_HISTORY →
      transit env u .STOP =
        ({ u with reminder_morning := none, reminder_evening := none, state := .STOP },
         [.stopped], none) := by
  intro env u h1 h2 h3 h4 h5
  cases hs : u.state <;> simp_all [transit, triggerSource, onExit, onEnter]

/-- A user mid-conversation in `WAIT_FOR_MORNING_TIME` with reminders
still set from an earlier configuration. -/
def uMorningTime : User :=
  { state := .WAIT_FOR_MORNING_TIME, chat_id := 1, reminder_morning := some ⟨7, 0, 0, tzUTC⟩,
    reminder_evening := some ⟨19, 0, 50, tzUTC⟩, reminder_forgot := some ⟨none⟩,
    measurements := [], tz := some tzUTC }

/-- C6 witness: stopping from `WAIT` clears the reminders and keeps
everything else. -/
theorem c6_stop_clears_reminders_witness :
    transit envQuiet uWaiting .STOP =
      ({ uWaiting with reminder_morning := none, reminder_evening := none, state := .STOP },
       [.stopped], none) :=
  c6_stop_clears_reminders envQuiet uWaiting (by decide) (by decide) (by decide) (by decide)
    (by decide)

/-- C6 counterexample: in `WAIT_FOR_MORNING_TIME`, the `/stop` command's
own text reaches the exit callback, which tries to parse it as a time and
raises, so `transit(STOP)` FAILS (reminders are not cleared and the state
stays `WAIT_FOR_MORNING_TIME`), contradicting the claim that the STOP
transition succeeds from every conversation state. -/
theorem c6_stop_from_sticky_cex :
    transit ⟨100, some ("/stop".data), noCity⟩ uMorningTime .STOP =
      (uMorningTime, [], some .invalidTimeFormat) := by
  rfl

/-! ## C10: the tracker across STOP -/

/-- C10 (amended): every SUCCESSFUL `transit(STOP)` from a state other
than `WAIT_FOR_EVENING_TIME` leaves the `reminder_forgot` field exactly
as it was (neither reset nor replaced) while clearing both reminders,
keeping history and chat id, and ending in `STOP` -- so a previously
notified tracker keeps its timestamp, and the forgot escalation can
become or remain due while the aggregate sits in `STOP`.  The zone is
also kept except from the three `WAIT_FOR_TZ*` states, whose exit
callback overwrites it with the resolved city on the success path.
(From `WAIT_FOR_EVENING_TIME` the exit callback installs a fresh tracker
first.) -/
theorem c10_stop_keeps_tracker :
    ∀ (env : Env) (u r : User) (msgs : List Msg),
      u.state ≠ .WAIT_FOR_EVENING_TIME →
      transit env u .STOP = (r, msgs, none) →
      r.reminder_forgot = u.reminder_forgot ∧ r.state = .STOP ∧
      r.reminder_morning = none ∧ r.reminder_evening = none ∧
      r.measurements = u.measurements ∧ r.chat_id = u.chat_id ∧
      (u.state ≠ .WAIT_FOR_TZ → u.state ≠ .WAIT_FOR_TZ_WHEN →
        u.state ≠ .WAIT_FOR_TZ_HISTORY → r.tz = u.tz) := by
  intro env u r msgs hne htr
  cases hs : u.state
  case WAIT_FOR_MORNING_TIME =>
    rcases he : env.text with _ | t
    · simp [transit, triggerSource, onExit, onEnter, hs, he] at htr
    · rcases hn : Reminder.new t u.tz env.now with e | rr
      · simp [transit, triggerSource, onExit, onEnter, hs, he, hn] at htr
      · simp [transit, triggerSource, onExit, onEnter, hs, he, hn] at htr
        obtain ⟨hr, -⟩ := htr
        subst hr
        simp [hs]
  case WAIT_FOR_TZ =>
    rcases he : env.text with _ | t
    · simp [transit, triggerSource, onExit, onEnter, hs, he] at htr
    · rcases hn : env.resolveCity t with e | z
      · simp [transit, triggerSource, onExit, onEnter, hs, he, hn] at htr
      · simp [transit, triggerSource, onExit, onEnter, hs, he, hn] at htr
        obtain ⟨hr, -⟩ := htr
        subst hr
        simp [hs]
  case WAIT_FOR_TZ_WHEN =>
    rcases he : env.text with _ | t
    · simp [transit, triggerSource, onExit, onEnter, hs, he] at htr
    · rcases hn : env.resolveCity t with e | z
      · simp [transit, triggerSource, onExit, onEnter, hs, he, hn] at htr
      · simp [transit, triggerSource, onExit, onEnter, hs, he, hn] at htr
        obtain ⟨hr, -⟩ := htr
        subst hr
        simp [hs]
  case WAIT_FOR_TZ_HISTORY =>
    rcases he : env.text with _ | t
    · simp [transit, triggerSource, onExit, onEnter, hs, he] at htr
    · rcases hn : env.resolveCity t with e | z
      · simp [transit, triggerSource, onExit, onEnter, hs, he, hn] at htr
      · simp [transit, triggerSource, onExit, onEnter, hs, he, hn] at htr
        obtain ⟨hr, -⟩ := htr
        subst hr
        simp [hs]
  case WAIT_FOR_EVENING_TIME => exact absurd hs hne
  all_goals
    simp [transit, triggerSource, onExit, onEnter, hs] at htr
  all_goals
    obtain ⟨hr, -⟩ := htr
  all_goals
    subst hr
  all_goals
    simp [hs]

/-- The aggregate `uStop` as `transit(STOP)` leaves it. -/
def uStopAfter : User :=
  { uStop with reminder_morning := none, reminder_evening := none, state := .STOP }

/-- C10 witness: a successful stop from `STOP` itself (tracker previously
notified at 42) keeps the tracker timestamp. -/
theorem c10_stop_keeps_tracker_witness :
    uStopAfter.reminder_forgot = uStop.reminder_forgot ∧
    uStopAfter.state = .STOP ∧
    uStopAfter.reminder_morning = none ∧
    uStopAfter.reminder_evening = none ∧
    uStopAfter.measurements = uStop.measurements ∧
    uStopAfter.chat_id = uStop.chat_id ∧
    (uStop.state ≠ .WAIT_FOR_TZ → uStop.state ≠ .WAIT_FOR_TZ_WHEN →
      uStop.state ≠ .WAIT_FOR_TZ_HISTORY → uStopAfter.tz = uStop.tz) :=
  c10_stop_keeps_tracker envQuiet uStop uStopAfter [.stopped] (by decide) rfl

/-- A user mid-conversation in `WAIT_FOR_EVENING_TIME` whose tracker was
notified at instant 1000. -/
def uEveningTime : User :=
  { state := .WAIT_FOR_EVENING_TIME, chat_id := 1, reminder_morning := none,
    reminder_evening := none, reminder_forgot := some ⟨some 1000⟩,
    measurements := [], tz := some tzUTC }

/-- C10 counterexample: a SUCCESSFUL `transit(STOP)` from
`WAIT_FOR_EVENING_TIME` with the time-like inbound text `"07:30"`
replaces the notified tracker (`latest_sent_ts = 1000`) with a fresh
never-notified one: the exit callback installs `ReminderForgot.new()`
before the STOP entry runs.  The claim that after every successful
transit to STOP the tracker still holds its prior timestamp is false. -/
theorem c10_evening_reset_cex :
    uEveningTime.reminder_forgot = some ⟨some 1000⟩ ∧
    transit ⟨0, some ("07:30".data), noCity⟩ uEveningTime .STOP =
      ({ uEveningTime with state := .STOP, reminder_forgot := some ⟨none⟩ },
       [.thanks, .stopped, .stopped], none) := by
  exact ⟨rfl, rfl⟩

/-! ## C2: worker tick isolation -/

/-- C2 (amended): users are processed independently within a tick (each
list position is handled by its own `error_handler`, so a failure in one
user's block never affects the others), but the three due-condition
blocks of a SINGLE user run sequentially under that one handler: if the
morning block raises, the user's evening and forgot blocks are skipped
for this tick and the stored record keeps its pre-tick value; if the
evening block raises after a successful morning block, the stored record
is the snapshot persisted by the morning block; if the forgot block
raises after the first two blocks, the stored record is the snapshot
after the evening block. -/
theorem c2_worker_tick :
    (∀ (env : Env) (us vs : List User) (u : User),
      workerTick env (us ++ u :: vs) =
        workerTick env us ++ tickUser env u :: workerTick env vs) ∧
    (∀ (env : Env) (u u1 : User) (msgs : List Msg) (e : Err),
      morningDue u env.now = true → transit env u .NOTIFY_MORNING = (u1, msgs, some e) →
      tickUser env u = u) ∧
    (∀ (env : Env) (u u1 u2 : User) (msgs : List Msg) (e : Err),
      condStep env morningDue .NOTIFY_MORNING u = .ok u1 →
      eveningDue u1 env.now = true → transit env u1 .NOTIFY_EVENING = (u2, msgs, some e) →
      tickUser env u = u1) ∧
    (∀ (env : Env) (u u1 u2 u3 : User) (msgs : List Msg) (e : Err),
      condStep env morningDue .NOTIFY_MORNING u = .ok u1 →
      condStep env eveningDue .NOTIFY_EVENING u1 = .ok u2 →
      forgotDue u2 env.now = true → transit env u2 .NOTIFY_FORGOT = (u3, msgs, some e) →
      tickUser env u = u2) := by
  refine ⟨?_, ?_, ?_, ?_⟩
  · intro env us vs u
    simp [workerTick]
  · intro env u u1 msgs e hdue htr
    simp [tickUser, condStep, hdue, htr]
  · intro env u u1 u2 msgs e hm hdue htr
    simp only [tickUser]
    rw [hm]
    simp [condStep, hdue, htr]
  · intro env u u1 u2 u3 msgs e hm hev hdue htr
    simp only [tickUser]
    rw [hm]
    simp only [hev]
    simp [condStep, hdue, htr]

/-- A user left in `WAIT_FOR_MORNING_TIME` (after a second `/when`)
whose morning and evening reminders are both already due at instant 100. -/
def uSeq : User :=
  { state := .WAIT_FOR_MORNING_TIME, chat_id := 2, reminder_morning := some ⟨7, 0, 0, tzUTC⟩,
    reminder_evening := some ⟨19, 0, 50, tzUTC⟩, reminder_forgot := some ⟨none⟩,
    measurements := [], tz := some tzUTC }

/-- C2 witness: concrete instances of the amended claim: list isolation
around `uSeq`, and the morning failure of `uSeq` (its state admits no
`NOTIFY_MORNING` transition) freezing its record for the tick. -/
theorem c2_worker_tick_witness :
    workerTick envQuiet ([uStop] ++ uSeq :: [uWaiting]) =
      workerTick envQuiet [uStop] ++ tickUser envQuiet uSeq :: workerTick envQuiet [uWaiting] ∧
    tickUser envQuiet uSeq = uSeq :=
  ⟨c2_worker_tick.1 envQuiet [uStop] [uWaiting] uSeq,
   c2_worker_tick.2.1 envQuiet uSeq uSeq [] .machineError rfl rfl⟩

/-- C2 counterexample: in one tick at instant 100, `uSeq`'s morning
condition is due but its notification fails (`MachineError`: `uSeq` is in
`WAIT_FOR_MORNING_TIME`, not `WAIT`); the evening condition of the SAME
user is also due, yet the tick leaves the user's record completely
unchanged -- the evening reminder is not advanced and nothing is
persisted -- because the single per-user `error_handler` wraps all three
condition blocks.  This contradicts the claim that a failure on one
condition does not prevent evaluation and persistence of the same user's
remaining conditions.  (A second user in the same tick is still processed
normally: its due reminders advance.) -/
theorem c2_sequential_cex :
    morningDue uSeq 100 = true ∧
    eveningDue uSeq 100 = true ∧
    transit envQuiet uSeq .NOTIFY_MORNING = (uSeq, [], some .machineError) ∧
    tickUser envQuiet uSeq = uSeq ∧
    (tickUser envQuiet uSeq).reminder_evening = some ⟨19, 0, 50, tzUTC⟩ ∧
    tickUser envQuiet { uSeq with state := .WAIT, chat_id := 3 } =
      { uSeq with state := .WAIT, chat_id := 3, reminder_morning := some ⟨7, 0, 86400, tzUTC⟩,
                  reminder_evening := some ⟨19, 0, 86450, tzUTC⟩,
                  reminder_forgot := some ⟨some 100⟩ } := by
  exact ⟨rfl, rfl, rfl, rfl, rfl, rfl⟩
